import Mathlib

/-!
Verification of the capture-and-orchestration pipeline of the TikTok
algorithmic-audit scraper.  The development shallowly embeds the relevant
parts of the three core modules:

* `scraper/fyp_browser.py` — watch-time configuration and
  `clamp_watch_coefficient`, the normal-watch path, the deferred random
  like scan `find_next_non_skippable_for_like`, and the outer control
  flow of `browse_fyp`;
* `scraper/video_action_handler.py` — `VideoInteractor.watch_video`
  coefficient selection and `VideoInteractor.follow_user`;
* `scraper/tiktok_network_interceptor.py` — the network event handlers,
  the body-fetch retry loop of `handle_response`, and the response
  normalizer with its identity registry.

Machine floats are embedded as exact rationals; the Python `set`s are
embedded as `Finset String`; the nondeterministic uuid fallback of the
normalizer is a threaded generator `Nat → String`; external collaborator
outcomes (DOM lookups, body fetches, click results) are explicit inputs.
-/

namespace TikTokAudit

/-! ### Watch-time configuration (fyp_browser.py lines 192-207)

`browse_fyp` reads three ceilings from the static configuration object:
the baseline `MAX_WATCHTIME` defaults to 120 when the attribute is
missing, and the two specialised ceilings each default to the baseline
when their attribute is missing (`hasattr` tests in the source).  A
field value `none` models a missing attribute. -/

structure WatchConfig where
  MAX_WATCHTIME : Option ℚ
  HASHTAGS_WATCH_LONGER_MAXWATCHTIME : Option ℚ
  RANDOM_WATCH_MAXWATCHTIME : Option ℚ

/-- fyp_browser.py lines 193-197: baseline ceiling, default 120. -/
def max_watchtime (cfg : WatchConfig) : ℚ :=
  cfg.MAX_WATCHTIME.getD 120

/-- fyp_browser.py lines 200-205: hashtag ceiling, defaults to the baseline. -/
def hashtags_max_watchtime (cfg : WatchConfig) : ℚ :=
  cfg.HASHTAGS_WATCH_LONGER_MAXWATCHTIME.getD (max_watchtime cfg)

/-- fyp_browser.py lines 201-207: random-watch ceiling, defaults to the baseline. -/
def random_max_watchtime (cfg : WatchConfig) : ℚ :=
  cfg.RANDOM_WATCH_MAXWATCHTIME.getD (max_watchtime cfg)

/-- fyp_browser.py lines 505-540, `clamp_watch_coefficient`: if
`cf * duration` exceeds the category ceiling the coefficient is rescaled
to `ceiling / duration`; a nonpositive duration returns `cf` unchanged.
The ceiling is the random one when `is_random_watch`, else the hashtag
one when `has_watch_longer_tags`, else the baseline. -/
def clamp_watch_coefficient (cfg : WatchConfig) (duration : ℚ) (cf : ℚ)
    (has_watch_longer_tags : Bool) (is_random_watch : Bool) : ℚ :=
  if duration ≤ 0 then cf
  else
    let watch_secs := cf * duration
    let current_max :=
      if is_random_watch then random_max_watchtime cfg
      else if has_watch_longer_tags then hashtags_max_watchtime cfg
      else max_watchtime cfg
    if watch_secs > current_max then current_max / duration else cf

/-- The applicable ceiling as the specification words it: random-watch
ceiling for the randomly-selected-for-partial-watch item, else the
hashtag-watch-longer ceiling for a watch-longer hashtag match, else the
baseline ceiling. -/
def applicableCeiling (cfg : WatchConfig) (is_random_watch : Bool)
    (has_watch_longer_tags : Bool) : ℚ :=
  if is_random_watch then random_max_watchtime cfg
  else if has_watch_longer_tags then hashtags_max_watchtime cfg
  else max_watchtime cfg

theorem clamp_eval (cfg : WatchConfig) (d c : ℚ) (t r : Bool) (hd : 0 < d) :
    clamp_watch_coefficient cfg d c t r =
      if applicableCeiling cfg r t < c * d then applicableCeiling cfg r t / d
      else c := by
  simp only [clamp_watch_coefficient, applicableCeiling, not_le.mpr hd,
    if_false, gt_iff_lt]

/-- C1: for every coefficient `c` and duration `d > 0`,
`clamp_watch_coefficient` returns `c` unchanged when `c * d` does not
exceed the applicable ceiling `L`, and returns exactly `L / d` when
`c * d` exceeds `L`, where `L` is the random-watch ceiling for the
randomly-selected item, else the hashtag ceiling for a watch-longer
hashtag match, else the baseline, each defaulting to the baseline when
unspecified. -/
theorem clamp_watch_coefficient_exact (cfg : WatchConfig) (c d : ℚ)
    (t r : Bool) (hd : 0 < d) :
    (c * d ≤ applicableCeiling cfg r t →
      clamp_watch_coefficient cfg d c t r = c) ∧
    (applicableCeiling cfg r t < c * d →
      clamp_watch_coefficient cfg d c t r = applicableCeiling cfg r t / d) := by
  rw [clamp_eval cfg d c t r hd]
  constructor
  · intro h
    rw [if_neg (not_lt.mpr h)]
  · intro h
    rw [if_pos h]

/-- C1 witness: with only the baseline ceiling 120 configured, a
coefficient 2 on a duration-100 video exceeds the ceiling and is
rescaled to exactly 120 / 100. -/
theorem clamp_watch_coefficient_exact_witness :
    clamp_watch_coefficient ⟨some 120, none, none⟩ 100 2 false false =
      applicableCeiling ⟨some 120, none, none⟩ false false / 100 :=
  (clamp_watch_coefficient_exact ⟨some 120, none, none⟩ 2 100 false false
      (by norm_num)).2
    (by norm_num [applicableCeiling, random_max_watchtime,
      hashtags_max_watchtime, max_watchtime])

/-- C10: `clamp_watch_coefficient` is idempotent over exact arithmetic:
for duration `d > 0` and a positive applicable ceiling, clamping an
already-clamped coefficient returns it unchanged, so the second clamping
before the normal watch (fyp_browser.py line 614) yields the same value
as the first (line 543). -/
theorem clamp_watch_coefficient_idempotent (cfg : WatchConfig) (c d : ℚ)
    (t r : Bool) (hd : 0 < d) (hL : 0 < applicableCeiling cfg r t) :
    clamp_watch_coefficient cfg d (clamp_watch_coefficient cfg d c t r) t r =
      clamp_watch_coefficient cfg d c t r := by
  rw [clamp_eval cfg d c t r hd]
  by_cases h : applicableCeiling cfg r t < c * d
  · rw [if_pos h, clamp_eval cfg d _ t r hd,
      div_mul_cancel₀ _ (ne_of_gt hd), if_neg (lt_irrefl _)]
  · rw [if_neg h, clamp_eval cfg d c t r hd, if_neg h]

/-- C10 witness: with baseline ceiling 120, duration 100 and coefficient
2, re-clamping the clamped coefficient 6/5 leaves it unchanged. -/
theorem clamp_watch_coefficient_idempotent_witness :
    clamp_watch_coefficient ⟨some 120, none, none⟩ 100
        (clamp_watch_coefficient ⟨some 120, none, none⟩ 100 2 false false)
        false false =
      clamp_watch_coefficient ⟨some 120, none, none⟩ 100 2 false false :=
  clamp_watch_coefficient_idempotent ⟨some 120, none, none⟩ 2 100 false false
    (by norm_num)
    (by norm_num [applicableCeiling, random_max_watchtime,
      hashtags_max_watchtime, max_watchtime])

/-! ### The watch step (video_action_handler.py, `VideoInteractor.watch_video`)

`browse_fyp` clamps the coefficient and passes it to `watch_video`, but
`watch_video` re-checks the watch-longer hashtags itself and, on a match,
overrides the incoming coefficient with the raw
`HASHTAGS_WATCH_LONGER_COEFFICIENT` (default 1.2). -/

/-- The Python `str.lower()` method, embedded as a character-wise
lowercase map (the configured tags and hashtags are plain ASCII). -/
def str_lower (s : String) : String :=
  String.mk (s.data.map Char.toLower)

/-- The Python `str.strip()` method, embedded as dropping whitespace from
both ends of the character list. -/
def str_trim (s : String) : String :=
  String.mk
    (((s.data.dropWhile Char.isWhitespace).reverse.dropWhile
        Char.isWhitespace).reverse)

structure UserConfig where
  HASHTAGS_WATCH_LONGER : List String
  HASHTAGS_WATCH_LONGER_COEFFICIENT : Option ℚ
  WATCH_COEFFICIENT_NO_HASHTAGS : Option ℚ
  RANDOM_WATCH_COEFFICIENT : Option ℚ

/-- video_action_handler.py lines 329-343: the coefficient actually used
inside `watch_video`.  When any video hashtag, lowercased, occurs among
the lowercased `HASHTAGS_WATCH_LONGER` tags, the incoming coefficient is
replaced by `HASHTAGS_WATCH_LONGER_COEFFICIENT` (default 6/5). -/
def watch_video_coefficient (uc : UserConfig) (video_hashtags : List String)
    (coefficient : ℚ) : ℚ :=
  let hashtags_watch_longer := uc.HASHTAGS_WATCH_LONGER
  let longer_coefficient := uc.HASHTAGS_WATCH_LONGER_COEFFICIENT.getD (6 / 5)
  if video_hashtags.any (fun h =>
      hashtags_watch_longer.any (fun tag => str_lower tag == str_lower h)) then
    longer_coefficient
  else coefficient

/-- video_action_handler.py line 373: `desired_watch_time = coefficient *
duration`, the intended watch time executed by the watch step (with the
playback clock at zero). -/
def watch_video_desired_time (uc : UserConfig) (video_hashtags : List String)
    (duration : ℚ) (coefficient : ℚ) : ℚ :=
  watch_video_coefficient uc video_hashtags coefficient * duration

/-- fyp_browser.py lines 496-543 and 613-616: the coefficient that the
normal (non-random-partial) watch path computes and hands to
`watch_video`: hashtag lookup, coefficient selection, and two successive
clampings with `is_random_watch = false`. -/
def browse_normal_watch_coefficient (cfg : WatchConfig) (uc : UserConfig)
    (video_hashtags : List String) (duration : ℚ) : ℚ :=
  let hashtags_lower := video_hashtags.map str_lower
  let watch_longer_tags := uc.HASHTAGS_WATCH_LONGER
  let has_watch_longer_tags :=
    watch_longer_tags.any (fun tag => hashtags_lower.contains tag)
  let watch_coeff :=
    if has_watch_longer_tags then uc.HASHTAGS_WATCH_LONGER_COEFFICIENT.getD 1
    else uc.WATCH_COEFFICIENT_NO_HASHTAGS.getD 1
  let watch_coeff :=
    clamp_watch_coefficient cfg duration watch_coeff has_watch_longer_tags false
  clamp_watch_coefficient cfg duration watch_coeff has_watch_longer_tags false

/-- The intended watch time that the normal watch path actually executes:
`browse_fyp` computes the clamped coefficient and `watch_video` then
applies its own override before multiplying by the duration. -/
def browse_normal_watch_executed_time (cfg : WatchConfig) (uc : UserConfig)
    (video_hashtags : List String) (duration : ℚ) : ℚ :=
  watch_video_desired_time uc video_hashtags duration
    (browse_normal_watch_coefficient cfg uc video_hashtags duration)

/-- The scenario of claim C2: hashtag ceiling 120 (and baseline 120),
watch-longer coefficient 3, one matching hashtag, duration 200. -/
def watchCfgC2 : WatchConfig := ⟨some 120, some 120, none⟩

def userCfgC2 : UserConfig := ⟨["boost"], some 3, none, none⟩

/-- C2: the claim says a watch-longer video of duration 200 with
coefficient 3 and ceiling 120 is watched exactly 120 seconds.  On the
code, `browse_fyp` does hand `watch_video` the correctly clamped
coefficient 3/5 (3/5 times 200 = 120, third conjunct), but `watch_video`
overrides it with the raw coefficient 3 because the hashtags match, so
the executed intended watch time is 600 seconds, not 120: the code
contradicts its own docstring, which promises the watch time never
exceeds the 120-second ceiling. -/
theorem watch_longer_executed_time_violates_ceiling :
    browse_normal_watch_executed_time watchCfgC2 userCfgC2 ["boost"] 200 = 600 ∧
    (600 : ℚ) ≠ 120 ∧
    browse_normal_watch_coefficient watchCfgC2 userCfgC2 ["boost"] 200 * 200 =
      120 := by
  have hb : str_lower "boost" = "boost" := by decide
  refine ⟨?_, by norm_num, ?_⟩ <;>
    simp [browse_normal_watch_executed_time, browse_normal_watch_coefficient,
      watch_video_desired_time, watch_video_coefficient,
      clamp_watch_coefficient, watchCfgC2, userCfgC2, max_watchtime,
      hashtags_max_watchtime, random_max_watchtime, hb] <;> norm_num

/-! ### Response Normalizer (tiktok_network_interceptor.py, handle_response
lines 378-551)

A raw item of the parsed `itemList`.  `id` is the optional item id field
(`vid_obj.get("id", "")` before stripping); `containerType` the optional
container flag; `liveRoomInfo` is `some` exactly when the live-room
metadata key is present (with its optional `roomID`); `video` is `some`
exactly when the nested video-stats object is present and nonempty (a
missing key and an empty dict are both falsy in the source test `if not
video_stats`); `durationVal` is the result of `float(...)` on the
duration field (`none` models an unparseable value, a missing key parses
as zero); `isAd` is the advertisement flag. -/

structure LiveRoomInfo where
  roomID : Option String
deriving DecidableEq

structure VideoStats where
  durationVal : Option ℚ
deriving DecidableEq

structure RawItem where
  id : Option String
  containerType : Option Int
  liveRoomInfo : Option LiveRoomInfo
  video : Option VideoStats
  isAd : Bool
deriving DecidableEq

/-- tiktok_network_interceptor.py lines 432-437: `raw_duration` is the
parsed duration, falling back to zero on a parse failure. -/
def raw_duration (vs : VideoStats) : ℚ :=
  vs.durationVal.getD 0

/-- tiktok_network_interceptor.py lines 400-446: the `skip_it` flag,
computed as a sequence of monotonic checks — container type 2, live-room
metadata presence, missing or empty video-stats object, zero (or
unparseable, hence zero) duration when stats are present, and the
advertisement flag. -/
def skip_it (it : RawItem) : Bool :=
  let skip1 := it.containerType == some 2
  let skip2 := skip1 || it.liveRoomInfo.isSome
  let skip3 := skip2 || it.video.isNone
  let skip4 :=
    match it.video with
    | some vs => skip3 || (raw_duration vs == 0)
    | none => skip3
  skip4 || it.isAd

/-- The skip classification as the specification words it: a plain
disjunction of the five checks, with an absent stats object making the
duration unparseable. -/
def claim_skip (it : RawItem) : Bool :=
  (it.containerType == some 2) || it.liveRoomInfo.isSome || it.video.isNone ||
    (match it.video with
      | some vs =>
        match vs.durationVal with
        | some q => q == 0
        | none => true
      | none => true) ||
    it.isAd

/-- C4: for every raw item, the computed `skip_this` flag is true exactly
when at least one of the five checks holds — container type 2, live-room
metadata present, video-stats absent or empty, duration zero or
unparseable, advertisement flag — i.e. the sequential monotonic OR of the
source agrees with the plain disjunction of the specification. -/
theorem skip_it_eq_claim_skip (it : RawItem) : skip_it it = claim_skip it := by
  rcases it with ⟨id, ct, lri, vid, ad⟩
  cases vid with
  | none => simp [skip_it, claim_skip]
  | some vs =>
    cases hd : vs.durationVal <;>
      simp [skip_it, claim_skip, raw_duration, hd, Bool.or_assoc]

/-- tiktok_network_interceptor.py lines 384-389: derive the item
identifier — the stripped explicit id when nonempty, else a synthetic
livestream id from the room id when `containerType == 2` and a `roomID`
is present, else a fresh `unknown_` identifier drawn from the uuid
generator (the threaded counter models successive `uuid.uuid4()` draws). -/
def derive_raw_id (uuidGen : Nat → String) (counter : Nat) (it : RawItem) :
    String × Nat :=
  let raw := str_trim (it.id.getD "")
  if raw ≠ "" then (raw, counter)
  else
    if it.containerType == some 2 then
      match it.liveRoomInfo.bind (fun l => l.roomID) with
      | some rid => ("livestream_" ++ rid, counter)
      | none => ("unknown_" ++ uuidGen counter, counter + 1)
    else ("unknown_" ++ uuidGen counter, counter + 1)

/-- The emitted record, restricted to the fields the consumer-side claims
inspect. -/
structure NormRecord where
  video_id : String
  duration : ℚ
  isAd : Bool
  skip_this : Bool
deriving DecidableEq

/-- tiktok_network_interceptor.py lines 432-550: the record built for one
non-duplicate item. -/
def make_record (it : RawItem) (vid : String) : NormRecord :=
  { video_id := vid
    duration := match it.video with | some vs => raw_duration vs | none => 0
    isAd := it.isAd
    skip_this := skip_it it }

/-- tiktok_network_interceptor.py lines 380-551: the normalizer walk over
the item list.  An item whose derived id is already in the registry
(`processed_video_ids`) is dropped; otherwise the id is registered and a
record emitted, in original item order.  Returns the records, the final
registry and the final uuid counter. -/
def normalize (uuidGen : Nat → String) :
    List RawItem → Finset String → Nat →
      List NormRecord × Finset String × Nat
  | [], reg, ctr => ([], reg, ctr)
  | it :: rest, reg, ctr =>
    let p := derive_raw_id uuidGen ctr it
    if p.1 ∈ reg then normalize uuidGen rest reg p.2
    else
      let q := normalize uuidGen rest (insert p.1 reg) p.2
      (make_record it p.1 :: q.1, q.2)

/-- The number of items dropped as duplicates, counted against the
registry as it evolves item by item (an identifier occurring twice in one
batch counts the second time). -/
def seen_count (uuidGen : Nat → String) :
    List RawItem → Finset String → Nat → Nat
  | [], _, _ => 0
  | it :: rest, reg, ctr =>
    let p := derive_raw_id uuidGen ctr it
    if p.1 ∈ reg then 1 + seen_count uuidGen rest reg p.2
    else seen_count uuidGen rest (insert p.1 reg) p.2

/-- The number M as claim C3 words it: items whose derived identifier is
already present in the registry at the start of processing. -/
def start_seen_count (uuidGen : Nat → String) :
    List RawItem → Finset String → Nat → Nat
  | [], _, _ => 0
  | it :: rest, reg0, ctr =>
    let p := derive_raw_id uuidGen ctr it
    (if p.1 ∈ reg0 then 1 else 0) + start_seen_count uuidGen rest reg0 p.2

theorem normalize_length_add_seen (uuidGen : Nat → String)
    (items : List RawItem) :
    ∀ (reg : Finset String) (ctr : Nat),
      (normalize uuidGen items reg ctr).1.length +
        seen_count uuidGen items reg ctr = items.length := by
  induction items with
  | nil => intro reg ctr; simp [normalize, seen_count]
  | cons it rest ih =>
    intro reg ctr
    by_cases hm : (derive_raw_id uuidGen ctr it).1 ∈ reg
    · have h := ih reg (derive_raw_id uuidGen ctr it).2
      simp only [normalize, seen_count, if_pos hm, List.length_cons]
      omega
    · have h := ih (insert (derive_raw_id uuidGen ctr it).1 reg)
        (derive_raw_id uuidGen ctr it).2
      simp only [normalize, seen_count, if_neg hm, List.length_cons]
      omega

theorem normalize_card (uuidGen : Nat → String) (items : List RawItem) :
    ∀ (reg : Finset String) (ctr : Nat),
      (normalize uuidGen items reg ctr).2.1.card =
        reg.card + (normalize uuidGen items reg ctr).1.length := by
  induction items with
  | nil => intro reg ctr; simp [normalize]
  | cons it rest ih =>
    intro reg ctr
    by_cases hm : (derive_raw_id uuidGen ctr it).1 ∈ reg
    · have h := ih reg (derive_raw_id uuidGen ctr it).2
      simp only [normalize, if_pos hm]
      omega
    · have h := ih (insert (derive_raw_id uuidGen ctr it).1 reg)
        (derive_raw_id uuidGen ctr it).2
      rw [Finset.card_insert_of_not_mem hm] at h
      simp only [normalize, if_neg hm, List.length_cons]
      omega

theorem normalize_avoids_registry (uuidGen : Nat → String)
    (items : List RawItem) :
    ∀ (reg : Finset String) (ctr : Nat),
      ∀ r ∈ (normalize uuidGen items reg ctr).1, r.video_id ∉ reg := by
  induction items with
  | nil => intro reg ctr; simp [normalize]
  | cons it rest ih =>
    intro reg ctr
    by_cases hm : (derive_raw_id uuidGen ctr it).1 ∈ reg
    · simpa only [normalize, if_pos hm] using ih reg _
    · intro r hr
      simp only [normalize, if_neg hm, List.mem_cons] at hr
      rcases hr with hr | hr
      · rw [hr]; exact hm
      · intro hcontra
        exact ih (insert (derive_raw_id uuidGen ctr it).1 reg) _ r hr
          (Finset.mem_insert_of_mem hcontra)

theorem normalize_registry_mono (uuidGen : Nat → String)
    (items : List RawItem) :
    ∀ (reg : Finset String) (ctr : Nat),
      reg ⊆ (normalize uuidGen items reg ctr).2.1 := by
  induction items with
  | nil => intro reg ctr; simp [normalize]
  | cons it rest ih =>
    intro reg ctr
    by_cases hm : (derive_raw_id uuidGen ctr it).1 ∈ reg
    · simpa only [normalize, if_pos hm] using ih reg _
    · simp only [normalize, if_neg hm]
      exact (Finset.subset_insert _ reg).trans (ih _ _)

theorem normalize_emits_into_registry (uuidGen : Nat → String)
    (items : List RawItem) :
    ∀ (reg : Finset String) (ctr : Nat),
      ∀ r ∈ (normalize uuidGen items reg ctr).1,
        r.video_id ∈ (normalize uuidGen items reg ctr).2.1 := by
  induction items with
  | nil => intro reg ctr; simp [normalize]
  | cons it rest ih =>
    intro reg ctr
    by_cases hm : (derive_raw_id uuidGen ctr it).1 ∈ reg
    · simpa only [normalize, if_pos hm] using ih reg _
    · intro r hr
      simp only [normalize, if_neg hm, List.mem_cons] at hr ⊢
      rcases hr with hr | hr
      · rw [hr]
        exact normalize_registry_mono uuidGen rest _ _
          (Finset.mem_insert_self _ _)
      · exact ih _ _ r hr

/-- A deterministic stand-in for the uuid generator, used at the concrete
inputs. -/
def uuid_demo (n : Nat) : String := toString n

/-- The duplicate-free sample item with explicit id `a` and duration 5. -/
def item_a : RawItem :=
  ⟨some "a", none, none, some ⟨some 5⟩, false⟩

/-- C3 counterexample: a batch holding the same explicit identifier `a`
twice, against an empty registry, has N = 2 and M = 0 identifiers already
present at the start of processing, yet the normalizer emits 1 record,
not N - M = 2: the registry is updated item by item, so the in-batch
duplicate is dropped too. -/
theorem normalize_start_count_counterexample :
    start_seen_count uuid_demo [item_a, item_a] ∅ 0 = 0 ∧
    (normalize uuid_demo [item_a, item_a] ∅ 0).1.length = 1 ∧
    (normalize uuid_demo [item_a, item_a] ∅ 0).1.length ≠
      [item_a, item_a].length - start_seen_count uuid_demo [item_a, item_a] ∅ 0 := by
  refine ⟨by decide, by decide, by decide⟩

/-- C3 (amended): with M counted against the registry as it evolves item
by item (so in-batch duplicates count toward M), the normalizer emits
exactly N - M records, the registry grows by exactly N - M, no record
carries an identifier that was in the registry when the batch started,
and every emitted identifier is registered — hence never re-emitted by a
later batch of the same run, whose starting registry contains it. -/
theorem normalize_emits_N_minus_M (uuidGen : Nat → String)
    (items : List RawItem) (reg : Finset String) (ctr : Nat) :
    (normalize uuidGen items reg ctr).1.length =
      items.length - seen_count uuidGen items reg ctr ∧
    seen_count uuidGen items reg ctr ≤ items.length ∧
    (normalize uuidGen items reg ctr).2.1.card =
      reg.card + (normalize uuidGen items reg ctr).1.length ∧
    (∀ r ∈ (normalize uuidGen items reg ctr).1, r.video_id ∉ reg) ∧
    (∀ r ∈ (normalize uuidGen items reg ctr).1,
      r.video_id ∈ (normalize uuidGen items reg ctr).2.1) := by
  have h := normalize_length_add_seen uuidGen items reg ctr
  exact ⟨by omega, by omega, normalize_card uuidGen items reg ctr,
    normalize_avoids_registry uuidGen items reg ctr,
    normalize_emits_into_registry uuidGen items reg ctr⟩

/-- C3 witness: the amended theorem at the concrete duplicate batch —
one emitted record (2 items, 1 in-batch duplicate) and a registry of
size 1. -/
theorem normalize_emits_N_minus_M_witness :
    (normalize uuid_demo [item_a, item_a] ∅ 0).1.length =
      [item_a, item_a].length - seen_count uuid_demo [item_a, item_a] ∅ 0 ∧
    (normalize uuid_demo [item_a, item_a] ∅ 0).2.1.card =
      (∅ : Finset String).card +
        (normalize uuid_demo [item_a, item_a] ∅ 0).1.length :=
  ⟨(normalize_emits_N_minus_M uuid_demo [item_a, item_a] ∅ 0).1,
    (normalize_emits_N_minus_M uuid_demo [item_a, item_a] ∅ 0).2.2.1⟩

/-! ### Follow state (video_action_handler.py `follow_user` lines 243-285,
tiktok_network_interceptor.py lines 669-713)

`FollowState` is the per-scenario set of followed author ids; every
successful follow inserts the id and synchronously rewrites the whole
set to disk, and every `VideoInteractor` reloads the set from disk, so a
single `Finset String` models the state within and across runs.  The DOM
collaborator click outcome is an explicit input: the injected script
returned true, returned a falsy value, or raised. -/

inductive ClickOutcome where
  | success
  | failure
  | error
deriving DecidableEq

/-- The observable effect of one `follow_user` invocation: the resulting
follow state, whether a click was delegated to the DOM collaborator, and
whether a persistence write (`add_followed_user`) occurred. -/
structure FollowResult where
  followed_users : Finset String
  clicked : Bool
  persisted : Bool

/-- video_action_handler.py lines 243-285: skip (no click, no write) when
the author id is truthy and already followed (the guard is
`if author_id and is_user_followed(author_id)`, so an empty id bypasses
the check); otherwise delegate the click and, only on a reported
success, insert the id and flush the set. -/
def follow_user (followed : Finset String) (author_id : String)
    (click : ClickOutcome) : FollowResult :=
  if author_id ≠ "" ∧ author_id ∈ followed then ⟨followed, false, false⟩
  else
    match click with
    | .success => ⟨insert author_id followed, true, true⟩
    | .failure => ⟨followed, true, false⟩
    | .error => ⟨followed, true, false⟩

/-- C5 counterexample: the empty-string author id defeats the guard — it
is already present in FollowState, yet `follow_user` delegates a click
and performs a second persistence write, because the truthiness test
`author_id and ...` short-circuits on the empty string. -/
theorem follow_user_empty_id_counterexample :
    ("" ∈ ({""} : Finset String)) ∧
    (follow_user {""} "" ClickOutcome.success).persisted = true ∧
    (follow_user {""} "" ClickOutcome.success).clicked = true := by
  refine ⟨by decide, by decide, by decide⟩

/-- C5 (amended): for every non-empty author id already in FollowState,
`follow_user` is a no-op (state unchanged, no click, no write); a
persistence write happens only when the collaborator reports a
successful click, only for an id not yet followed (when non-empty), and
always leaves the id in the state — so a non-empty id, once written, is
never the target of a second write: the follow-up call on the updated
state is again write-free. -/
theorem follow_user_no_refollow (followed : Finset String)
    (author_id : String) (click click2 : ClickOutcome) :
    (author_id ≠ "" → author_id ∈ followed →
      follow_user followed author_id click = ⟨followed, false, false⟩) ∧
    ((follow_user followed author_id click).persisted = true →
      click = ClickOutcome.success) ∧
    (author_id ≠ "" → (follow_user followed author_id click).persisted = true →
      author_id ∉ followed) ∧
    ((follow_user followed author_id click).persisted = true →
      author_id ∈ (follow_user followed author_id click).followed_users) ∧
    (author_id ≠ "" →
      (follow_user (insert author_id followed) author_id click2).persisted =
        false) := by
  refine ⟨fun hne hmem => ?_, ?_, fun hne hp => ?_, ?_, fun hne => ?_⟩
  · simp only [follow_user]
    rw [if_pos ⟨hne, hmem⟩]
  · unfold follow_user
    split_ifs
    · intro h; exact absurd h (by simp)
    · cases click <;> simp
  · by_contra hmem
    simp only [follow_user] at hp
    rw [if_pos ⟨hne, hmem⟩] at hp
    exact absurd hp (by simp)
  · unfold follow_user
    split_ifs
    · intro h; exact absurd h (by simp)
    · cases click <;> simp
  · simp only [follow_user]
    rw [if_pos ⟨hne, Finset.mem_insert_self _ _⟩]

/-- C5 witness: the amended theorem at a concrete already-followed id —
the call is a no-op. -/
theorem follow_user_no_refollow_witness :
    follow_user {"u1"} "u1" ClickOutcome.success =
      ⟨{"u1"}, false, false⟩ :=
  (follow_user_no_refollow {"u1"} "u1" ClickOutcome.success
      ClickOutcome.success).1 (by decide) (by decide)

/-! ### Capture Coordinator event handlers (tiktok_network_interceptor.py
lines 117-199)

The handlers mutate three module-level collections: `request_map` (ids
with stored RequestMeta), `processed_request_ids` and
`pending_request_ids`.  Each handler runs without suspension between its
check and its updates. -/

structure InterceptorState where
  processed_request_ids : Finset String
  pending_request_ids : Finset String
  request_map : Finset String

inductive NetworkEvent where
  | requestWillBeSent (request_id : String) (matchesEndpoint : Bool)
  | responseReceived (request_id : String) (matchesEndpoint : Bool)
  | loadingFinished (request_id : String)

/-- tiktok_network_interceptor.py lines 117-199: the effect of one
network event on the shared sets.  `request_will_be_sent_handler` stores
RequestMeta for a matching request; `response_received_handler` ignores
an already-processed id and otherwise marks it processed and pending in
the same unsuspended step; `loading_finished_handler` removes a pending
id (and spawns `handle_response`, which never touches these sets). -/
def interceptor_step (e : NetworkEvent) (s : InterceptorState) :
    InterceptorState :=
  match e with
  | .requestWillBeSent rid m =>
    if m then { s with request_map := insert rid s.request_map } else s
  | .responseReceived rid m =>
    if m then
      if rid ∈ s.processed_request_ids then s
      else
        { s with
          processed_request_ids := insert rid s.processed_request_ids
          pending_request_ids := insert rid s.pending_request_ids }
    else s
  | .loadingFinished rid =>
    if rid ∈ s.pending_request_ids then
      { s with pending_request_ids := s.pending_request_ids.erase rid }
    else s

/-- tiktok_network_interceptor.py lines 83-97: all collections start
empty. -/
def initial_interceptor_state : InterceptorState := ⟨∅, ∅, ∅⟩

/-- C9: the pending request-id set is always a subset of the processed
set — it holds in the initial state, and every event handler preserves
it: the response handler adds an id to pending only while adding it to
processed in the same unsuspended step, the loading-finished handler
only removes pending ids, and no handler removes processed ids. -/
theorem pending_subset_processed_invariant :
    initial_interceptor_state.pending_request_ids ⊆
      initial_interceptor_state.processed_request_ids ∧
    ∀ (e : NetworkEvent) (s : InterceptorState),
      s.pending_request_ids ⊆ s.processed_request_ids →
        (interceptor_step e s).pending_request_ids ⊆
          (interceptor_step e s).processed_request_ids := by
  constructor
  · simp [initial_interceptor_state]
  · intro e s h
    cases e with
    | requestWillBeSent rid m =>
      simp only [interceptor_step]
      split_ifs <;> exact h
    | responseReceived rid m =>
      simp only [interceptor_step]
      split_ifs with h1 h2
      · exact h
      · exact Finset.insert_subset_insert _ h
      · exact h
    | loadingFinished rid =>
      simp only [interceptor_step]
      split_ifs
      · exact (Finset.erase_subset _ _).trans h
      · exact h

/-- C9 witness: the preservation step applied to a concrete
response-received event in the initial state. -/
theorem pending_subset_processed_invariant_witness :
    (interceptor_step (NetworkEvent.responseReceived "r1" true)
        initial_interceptor_state).pending_request_ids ⊆
      (interceptor_step (NetworkEvent.responseReceived "r1" true)
        initial_interceptor_state).processed_request_ids :=
  pending_subset_processed_invariant.2
    (NetworkEvent.responseReceived "r1" true) initial_interceptor_state
    (Finset.empty_subset _)

/-! ### Body-fetch retry loop (tiktok_network_interceptor.py,
handle_response lines 285-343)

One attempt of `get_response_body` can return a `(body, isBase64)` pair
(the body may be the empty string), an empty result, raise an ordinary
exception, or observe cancellation.  The attempt sequence is an input
`Nat → AttemptResult`, the value at `i` being the outcome the browser
would give the `(i+1)`-th call. -/

inductive AttemptResult where
  | success (body : String) (isBase64 : Bool)
  | empty
  | error
  | cancelled
deriving DecidableEq

/-- What the handler does with the response after the fetch phase:
process the parsed body, write exactly one quarantine file keyed by the
request id and return, return silently with a falsy body, or abort on
cancellation with no side effects. -/
inductive FetchOutcome where
  | processed (body : String) (isBase64 : Bool)
  | quarantined
  | skipped
  | cancelled
deriving DecidableEq

/-- tiktok_network_interceptor.py lines 290-313: the `for attempt in
range(5)` loop.  Returns the body (if any), the `attempt_failed` flag and
whether cancellation was observed.  A success breaks with the flag as it
stands; an empty result on attempt 0 waits and retries, an empty result
on a later attempt sets the flag and the loop nevertheless continues; an
ordinary exception sets the flag and breaks; cancellation returns
immediately. -/
def fetch_body_loop (att : Nat → AttemptResult) :
    Nat → Nat → Bool → Option (String × Bool) × Bool × Bool
  | 0, _, attempt_failed => (none, attempt_failed, false)
  | fuel + 1, i, attempt_failed =>
    match att i with
    | .success b b64 => (some (b, b64), attempt_failed, false)
    | .empty =>
      if i = 0 then fetch_body_loop att fuel (i + 1) attempt_failed
      else fetch_body_loop att fuel (i + 1) true
    | .error => (none, true, false)
    | .cancelled => (none, attempt_failed, true)

/-- tiktok_network_interceptor.py lines 315-343: what follows the fetch
loop — a cancellation aborts with no side effects; a set
`attempt_failed` flag writes exactly one quarantine file (keyed by the
request id) and returns; a falsy body returns without parsing; otherwise
the body is parsed and processed. -/
def post_fetch (r : Option (String × Bool) × Bool × Bool) : FetchOutcome :=
  if r.2.2 then .cancelled
  else if r.2.1 then .quarantined
  else
    match r.1 with
    | some (b, b64) => if b = "" then .skipped else .processed b b64
    | none => .skipped

/-- tiktok_network_interceptor.py lines 285-343: the fetch phase of
`handle_response` — the 5-attempt loop followed by the flag checks. -/
def handle_response_fetch (att : Nat → AttemptResult) : FetchOutcome :=
  post_fetch (fetch_body_loop att 5 0 false)

/-- The attempt sequence of the C6 counterexample: empty, empty, then a
successful body. -/
def att_empty_empty_success : Nat → AttemptResult
  | 0 => .empty
  | 1 => .empty
  | _ => .success "BODY" false

/-- C6 counterexample: a body successfully retrieved on the third
attempt, after two empty attempts, is quarantined rather than parsed —
the second empty attempt set `attempt_failed`, which no later success
clears — refuting the claim that a response whose body is retrieved on
some attempt is processed. -/
theorem fetch_success_after_two_empties_quarantined :
    handle_response_fetch att_empty_empty_success = FetchOutcome.quarantined ∧
    handle_response_fetch att_empty_empty_success ≠
      FetchOutcome.processed "BODY" false := by
  refine ⟨by decide, by decide⟩

theorem fetch_body_loop_congr (att att2 : Nat → AttemptResult) :
    ∀ (fuel i : Nat) (flag : Bool),
      (∀ j, i ≤ j → j < i + fuel → att j = att2 j) →
        fetch_body_loop att fuel i flag = fetch_body_loop att2 fuel i flag := by
  intro fuel
  induction fuel with
  | zero => intro i flag h; rfl
  | succ fuel ih =>
    intro i flag h
    have hi : att i = att2 i := h i le_rfl (by omega)
    have hrest : ∀ j, i + 1 ≤ j → j < i + 1 + fuel → att j = att2 j :=
      fun j h1 h2 => h j (by omega) (by omega)
    simp only [fetch_body_loop, hi]
    cases att2 i with
    | success b b64 => rfl
    | empty =>
      by_cases h0 : i = 0
      · rw [if_pos h0, if_pos h0]
        exact ih (i + 1) flag hrest
      · rw [if_neg h0, if_neg h0]
        exact ih (i + 1) true hrest
    | error => rfl
    | cancelled => rfl

theorem fetch_body_loop_flag_sticky (att : Nat → AttemptResult) :
    ∀ (fuel i : Nat),
      (fetch_body_loop att fuel i true).2.1 = true ∨
        (fetch_body_loop att fuel i true).2.2 = true := by
  intro fuel
  induction fuel with
  | zero => intro i; left; rfl
  | succ fuel ih =>
    intro i
    simp only [fetch_body_loop]
    cases att i with
    | success b b64 => left; rfl
    | empty =>
      by_cases h0 : i = 0
      · rw [if_pos h0]; exact ih (i + 1)
      · rw [if_neg h0]; exact ih (i + 1)
    | error => left; rfl
    | cancelled => right; rfl

theorem post_fetch_flagged (r : Option (String × Bool) × Bool × Bool)
    (h : r.2.1 = true ∨ r.2.2 = true) (b : String) (b64 : Bool) :
    post_fetch r ≠ FetchOutcome.processed b b64 := by
  rcases r with ⟨o, f, c⟩
  cases c
  · cases f
    · simp at h
    · simp [post_fetch]
  · simp [post_fetch]

theorem fetch_body_loop_eval5 (att : Nat → AttemptResult) :
    fetch_body_loop att 5 0 false =
      match att 0 with
      | .success b b64 => (some (b, b64), false, false)
      | .error => (none, true, false)
      | .cancelled => (none, false, true)
      | .empty =>
        match att 1 with
        | .success b b64 => (some (b, b64), false, false)
        | .error => (none, true, false)
        | .cancelled => (none, false, true)
        | .empty => fetch_body_loop att 3 2 true := by
  cases h0 : att 0 <;> simp only [fetch_body_loop, h0] <;>
    first
      | rfl
      | (cases h1 : att 1 <;> simp [fetch_body_loop, h1])

/-- C6 (amended): body retrieval examines at most the first 5 attempt
outcomes; if all 5 attempts come back empty the response is quarantined
(one quarantine file per unrecoverable response, keyed by its request
id); but a retrieved body is parsed and processed only when it arrives
on the first attempt, or on the second after an empty first attempt — an
empty attempt later than the first sets the unrecoverable flag, which no
subsequent success clears, so the response is quarantined even when a
later attempt retrieves the body. -/
theorem handle_response_fetch_characterisation :
    (∀ (att att2 : Nat → AttemptResult),
      (∀ j, j < 5 → att j = att2 j) →
        handle_response_fetch att = handle_response_fetch att2) ∧
    (∀ att : Nat → AttemptResult,
      (∀ j, j < 5 → att j = AttemptResult.empty) →
        handle_response_fetch att = FetchOutcome.quarantined) ∧
    (∀ (att : Nat → AttemptResult) (b : String) (b64 : Bool),
      handle_response_fetch att = FetchOutcome.processed b b64 ↔
        (b ≠ "" ∧
          (att 0 = AttemptResult.success b b64 ∨
            (att 0 = AttemptResult.empty ∧
              att 1 = AttemptResult.success b b64)))) := by
  refine ⟨?_, ?_, ?_⟩
  · intro att att2 h
    unfold handle_response_fetch
    rw [fetch_body_loop_congr att att2 5 0 false (fun j _ hj => h j (by omega))]
  · intro att h
    unfold handle_response_fetch
    rw [fetch_body_loop_eval5 att]
    simp only [h 0 (by omega), h 1 (by omega)]
    simp [fetch_body_loop, post_fetch, h 2 (by omega), h 3 (by omega),
      h 4 (by omega)]
  · intro att b b64
    unfold handle_response_fetch
    rw [fetch_body_loop_eval5 att]
    cases h0 : att 0 with
    | success b0 s0 =>
      simp only [post_fetch]
      by_cases hb : b0 = ""
      · simp [hb]
        intro hne heq
        exact absurd heq.symm hne
      · simp [hb]
        rintro rfl _
        exact hb
    | empty =>
      cases h1 : att 1 with
      | success b1 s1 =>
        simp only [post_fetch]
        by_cases hb : b1 = ""
        · simp [hb]
          intro hne heq
          exact absurd heq.symm hne
        · simp [hb]
          rintro rfl _
          exact hb
      | empty =>
        have hst := fetch_body_loop_flag_sticky att 3 2
        simp only []
        constructor
        · intro hcon
          exact absurd hcon (post_fetch_flagged _ hst b b64)
        · rintro ⟨hne, hca | ⟨hce, hcs⟩⟩
          · exact absurd hca (by simp [h0])
          · exact absurd hcs (by simp [h1])
      | error =>
        simp [post_fetch]
      | cancelled =>
        simp [post_fetch]
    | error =>
      simp [post_fetch]
    | cancelled =>
      simp [post_fetch]

/-- C6 witness: the amended theorem at the all-empty attempt sequence —
five failed attempts and a quarantined response. -/
theorem handle_response_fetch_characterisation_witness :
    handle_response_fetch (fun _ => AttemptResult.empty) =
      FetchOutcome.quarantined :=
  handle_response_fetch_characterisation.2.1 (fun _ => AttemptResult.empty)
    (fun _ _ => rfl)

/-! ### Deferred random like (fyp_browser.py lines 549-598) and the like
click target (video_action_handler.py lines 287-320)

The consumer-side batch items, restricted to the fields the browsing
loop inspects.  `dom` tells whether the on-screen article at a given
scroll index can be selected. -/

structure VideoDetails where
  video_id : String
  author_id : String
  duration : ℚ
  hashtags : List String
  isAd : Bool
  skip_this : Bool
deriving DecidableEq

def default_details : VideoDetails := ⟨"", "", 0, [], false, false⟩

/-- fyp_browser.py lines 549-585, `find_next_non_skippable_for_like`:
starting from position `i` (current item) and scroll index `gvi`, walk
forward while the current item is skip- or ad-classified, re-selecting
the on-screen article at each advanced index; return whether an eligible
item was found together with the final `i` and `global_video_index`.
The fuel argument bounds the loop by the batch length. -/
def find_next_non_skippable_loop (video_batch : List VideoDetails)
    (dom : Nat → Bool) : Nat → Nat → Nat → Bool × Nat × Nat
  | 0, i, gvi => (false, i, gvi)
  | fuel + 1, i, gvi =>
    if video_batch.length ≤ i then (false, i, gvi)
    else
      let details := video_batch.getD i default_details
      if details.skip_this || details.isAd then
        let i2 := i + 1
        let gvi2 := gvi + 1
        if video_batch.length ≤ i2 then (false, i2, gvi2)
        else if dom gvi2 then
          find_next_non_skippable_loop video_batch dom fuel i2 gvi2
        else (false, i2, gvi2)
      else (true, i, gvi)

/-- The like action for an index pre-selected for a random like
(fyp_browser.py lines 588-598): run the scan from the current position;
when it finds an eligible item, `v_interactor.like()` is invoked and
`store_interaction` records the **advanced** item id — but the injected
click script selects `article[data-scroll-index=video_index]` with
`self.video_index` frozen at the interactor construction, i.e. the
scroll index the loop entered with.  Result: `some (clicked scroll
index, recorded video id)`, or `none` when the intent is dropped. -/
def random_like_action (video_batch : List VideoDetails) (dom : Nat → Bool)
    (i : Nat) (gvi : Nat) : Option (Nat × String) :=
  let r := find_next_non_skippable_loop video_batch dom
    (video_batch.length + 1) i gvi
  if r.1 then
    some (gvi, (video_batch.getD r.2.1 default_details).video_id)
  else none

/-- The C7 batch: a skip-classified item followed by an eligible one. -/
def item_skip : VideoDetails := ⟨"skipvid", "a1", 10, [], false, true⟩

def item_ok : VideoDetails := ⟨"okvid", "a2", 10, [], false, false⟩

/-- C7: index 0 is pre-selected for a random like but holds a
skip-classified item; the scan correctly advances to the eligible item
at position 1 and the interaction record names its id `okvid`, yet the
click is issued against `article[data-scroll-index=0]` — the originally
selected skip item — because `like()` uses the construction-time
`video_index`.  The code contradicts its own docstring, which promises
that the next post is liked instead. -/
theorem random_like_clicks_original_index :
    find_next_non_skippable_loop [item_skip, item_ok] (fun _ => true) 3 0 0 =
      (true, 1, 1) ∧
    random_like_action [item_skip, item_ok] (fun _ => true) 0 0 =
      some (0, "okvid") ∧
    (0 : Nat) ≠ 1 := by
  refine ⟨by decide, by decide, by decide⟩

/-! ### Outer control flow of browse_fyp (fyp_browser.py lines 292-311
and 664-669)

`tab.find` may hand back the feed entry control, complete without one,
or raise; the main loop may complete or raise.  The whole body sits in a
try/except whose handler only logs, after which `testrunid` is
returned — except for the explicit `return None` taken when the lookup
completes without a button. -/

inductive FindButtonResult where
  | found
  | notFound
  | raised
deriving DecidableEq

inductive MainLoopResult where
  | completed
  | raised
deriving DecidableEq

/-- fyp_browser.py lines 292-311 and 664-669: the value `browse_fyp`
returns once the run id has been assigned, as a function of the feed
entry lookup outcome and the main loop outcome. -/
def browse_fyp_result (find_button : FindButtonResult)
    (main_loop : MainLoopResult) (testrunid : String) : Option String :=
  match find_button with
  | .notFound => none
  | .raised => some testrunid
  | .found =>
    match main_loop with
    | .completed => some testrunid
    | .raised => some testrunid

/-- C8 counterexample: when the feed entry lookup completes without a
button, `browse_fyp` returns `None` — no run identifier — refuting the
claim that it still returns a valid run identifier in that case (the
explicit `return None` at fyp_browser.py line 311, documented in the
function docstring). -/
theorem browse_fyp_not_found_returns_none :
    browse_fyp_result FindButtonResult.notFound MainLoopResult.completed "1" =
      none ∧
    (browse_fyp_result FindButtonResult.notFound MainLoopResult.completed
        "1").isSome = false := by
  refine ⟨by decide, by decide⟩

/-- C8 (amended): when the feed entry lookup completes without a button,
`browse_fyp` returns `None` rather than a run identifier; when the
lookup raises (e.g. a timeout), and when any exception occurs inside the
main loop body, the exception is caught and the already-assigned run
identifier is still returned. -/
theorem browse_fyp_return_characterisation (main_loop : MainLoopResult)
    (testrunid : String) :
    browse_fyp_result FindButtonResult.notFound main_loop testrunid = none ∧
    browse_fyp_result FindButtonResult.raised main_loop testrunid =
      some testrunid ∧
    browse_fyp_result FindButtonResult.found main_loop testrunid =
      some testrunid := by
  cases main_loop <;> exact ⟨rfl, rfl, rfl⟩

end TikTokAudit
